import Mathlib

/-!
Verification development for the Sharingan eye-control repository.

Two clients are embedded:

* `Popup` — the WebGazer-mode content script (`popup.js`): coordinate
  normalisation, confidence / saccade / outlier gate, Kalman and low-pass
  filtering, sidebar zone resolution with hysteresis, dwell state machine,
  liveness watchdog.
* `ContentPy` — the Python-server-mode content script embedded in
  `start_server.bat` (`content_python.js`): WebSocket message handling,
  calibration click protocol, animation-tick driven zone/dwell evaluation.

Coordinates, times and filter values are modelled as rationals (JS numbers
used here stay well inside exactly-representable ranges for the properties
proved).  JS `null`/`undefined` fields become `Option`.  Mutation of the
global `state` object becomes explicit state passing.  DOM/visual effects
are dropped; the observable output of a pipeline step is the list of zone
actions it dispatches via `handleZoneAction`.
-/

namespace Popup

/-- CONFIG.SIDEBAR_WIDTH in popup.js. -/
def SIDEBAR_WIDTH : ℚ := 140

/-- CONFIG.ZONE_COUNT in popup.js. -/
def ZONE_COUNT : ℕ := 5

/-- CONFIG.DWELL_TIME in popup.js (note: 650, not 600). -/
def DWELL_TIME : ℚ := 650

/-- CONFIG.LERP_MARGIN in popup.js. -/
def LERP_MARGIN : ℚ := 8/100

/-- CONFIG.FILTER_ALPHA in popup.js. -/
def FILTER_ALPHA : ℚ := 1/2

/-- CONFIG.KALMAN_ENABLED in popup.js. -/
def KALMAN_ENABLED : Bool := true

/-- CONFIG.VELOCITY_THRESHOLD in popup.js (px/s). -/
def VELOCITY_THRESHOLD : ℚ := 1200

/-- CONFIG.MIN_CONFIDENCE in popup.js. -/
def MIN_CONFIDENCE : ℚ := 3/10

/-- CONFIG.OUTLIER_THRESHOLD in popup.js (px). -/
def OUTLIER_THRESHOLD : ℚ := 200

/-- CONFIG.ZONE_SWITCH_DELAY in popup.js (ms). -/
def ZONE_SWITCH_DELAY : ℚ := 100

/-- CONFIG.WATCHDOG_INTERVAL in popup.js (ms). -/
def WATCHDOG_INTERVAL : ℚ := 3000

/-- CONFIG.WATCHDOG_TIMEOUT in popup.js (ms). -/
def WATCHDOG_TIMEOUT : ℚ := 5000

/-- CONFIG.ZONES in popup.js, ordered top to bottom. -/
def ZONES : List String := ["SCROLL_UP", "SCROLL_DOWN", "MEDIA", "ASK_AI", "KILL_SWITCH"]

/-- Per-axis Kalman filter state (`state.kalmanX` / `state.kalmanY`). -/
structure KalmanState where
  x : ℚ
  p : ℚ
  q : ℚ
  r : ℚ
deriving Repr, DecidableEq

/-- The initial per-axis Kalman state `{ x: 0, p: 1000, q: 8, r: 20 }`. -/
def initKalman : KalmanState := ⟨0, 1000, 8, 20⟩

/-- The mutable global `state` object of popup.js (DOM handles such as
`scrollIntervalId` and `watchdogId` are dropped; `isScrolling` and
`scrollDirection` keep the observable scrolling status). -/
structure State where
  isActive : Bool
  isScrolling : Bool
  scrollDirection : Option String
  currentZone : Option String
  pendingZone : Option String
  zoneSwitchTime : Option ℚ
  dwellStartTime : Option ℚ
  filteredX : Option ℚ
  filteredY : Option ℚ
  isWebGazerReady : Bool
  isCalibrated : Bool
  calibrationClicks : ℕ
  lastGazeTime : ℚ
  gazeBuffer : List (ℚ × ℚ)
  lastRawX : Option ℚ
  lastRawY : Option ℚ
  lastTimestamp : Option ℚ
  velocityX : ℚ
  velocityY : ℚ
  kalmanX : KalmanState
  kalmanY : KalmanState
deriving Repr, DecidableEq

/-- The initial value of the `state` literal in popup.js. -/
def initialState : State where
  isActive := true
  isScrolling := false
  scrollDirection := none
  currentZone := none
  pendingZone := none
  zoneSwitchTime := none
  dwellStartTime := none
  filteredX := none
  filteredY := none
  isWebGazerReady := false
  isCalibrated := false
  calibrationClicks := 0
  lastGazeTime := 0
  gazeBuffer := []
  lastRawX := none
  lastRawY := none
  lastTimestamp := none
  velocityX := 0
  velocityY := 0
  kalmanX := initKalman
  kalmanY := initKalman

/-- `lerpCoordinate(value, viewportSize)`: margin-trimmed linear rescale
with clamping of the normalised ratio to `[0, 1]`. -/
def lerpCoordinate (value viewportSize : ℚ) : ℚ :=
  let minMargin := LERP_MARGIN * viewportSize
  let maxMargin := (1 - LERP_MARGIN) * viewportSize
  let range := maxMargin - minMargin
  let normalized := (value - minMargin) / range
  max 0 (min 1 normalized) * viewportSize

/-- `applyLowPassFilter(newValue, oldValue)` (fallback smoothing). -/
def applyLowPassFilter (newValue : ℚ) (oldValue : Option ℚ) : ℚ :=
  match oldValue with
  | none => newValue
  | some old => old + FILTER_ALPHA * (newValue - old)

/-- `kalmanFilter(measurement, kalmanState)`: one predict/update step;
returns the new estimate and the mutated Kalman state. -/
def kalmanFilter (measurement : ℚ) (ks : KalmanState) : ℚ × KalmanState :=
  let predictedX := ks.x
  let predictedP := ks.p + ks.q
  let k := predictedP / (predictedP + ks.r)
  let newX := predictedX + k * (measurement - predictedX)
  let newP := (1 - k) * predictedP
  (newX, { ks with x := newX, p := newP })

/-- Velocity result of `calculateVelocity`.  The JS code compares
`Math.sqrt(vx*vx + vy*vy)` against `VELOCITY_THRESHOLD`; we carry the
squared speed, since for nonnegative `s` and threshold `T ≥ 0` we have
`sqrt s > T ↔ s > T^2`. -/
structure Velocity where
  vx : ℚ
  vy : ℚ
  speedSq : ℚ
deriving Repr, DecidableEq

/-- `calculateVelocity(newX, newY, timestamp)`: updates
`lastRawX/lastRawY/lastTimestamp` (and the velocity fields) except when a
prior sample exists and the elapsed time is `≤ 0`, in which case the stored
velocity is reused and nothing is written back.  The JS code tests
`lastRawX === null || lastTimestamp === null`; when both are present it
reads `lastRawY` unconditionally (`getD 0` is unreachable filler for a
field that is always set together with `lastRawX`). -/
def calculateVelocity (s : State) (newX newY timestamp : ℚ) : Velocity × State :=
  match s.lastRawX, s.lastTimestamp with
  | some lastX, some lastT =>
    let lastY := s.lastRawY.getD 0
    let dt := (timestamp - lastT) / 1000
    if dt ≤ 0 then
      (⟨s.velocityX, s.velocityY, s.velocityX ^ 2 + s.velocityY ^ 2⟩, s)
    else
      let vx := (newX - lastX) / dt
      let vy := (newY - lastY) / dt
      (⟨vx, vy, vx ^ 2 + vy ^ 2⟩,
        { s with lastRawX := some newX, lastRawY := some newY,
                 lastTimestamp := some timestamp, velocityX := vx, velocityY := vy })
  | _, _ =>
    (⟨0, 0, 0⟩,
      { s with lastRawX := some newX, lastRawY := some newY,
               lastTimestamp := some timestamp })

/-- `isOutlier(newX, newY)`: true when a prior filtered position exists and
the new point is farther than `OUTLIER_THRESHOLD` from it (the JS
`sqrt(d) > T` test is embedded as `d > T^2`). -/
def isOutlier (s : State) (newX newY : ℚ) : Bool :=
  match s.filteredX, s.filteredY with
  | some fx, some fy =>
    decide ((newX - fx) ^ 2 + (newY - fy) ^ 2 > OUTLIER_THRESHOLD ^ 2)
  | _, _ => false

/-- The confidence veto of `processGazeData` step 1 (`eyeFeatures` with a
defined `confidence` below `MIN_CONFIDENCE`). -/
def confidenceReject (confidence : Option ℚ) : Bool :=
  match confidence with
  | some c => decide (c < MIN_CONFIDENCE)
  | none => false

/-- `processGazeData(rawX, rawY, timestamp, eyeFeatures)`: confidence veto,
normalisation, velocity/saccade veto, outlier veto with hold-steady
replacement, then Kalman (or low-pass) filtering.  `vw`/`vh` stand for
`window.innerWidth`/`window.innerHeight`.  In the outlier branch the JS
code tests `state.filteredX !== null` and then reads both filtered fields;
they are always set together. -/
def processGazeData (s : State) (rawX rawY timestamp : ℚ) (confidence : Option ℚ)
    (vw vh : ℚ) : Option (ℚ × ℚ) × State :=
  if confidenceReject confidence then (none, s)
  else
    let lerpedX := lerpCoordinate rawX vw
    let lerpedY := lerpCoordinate rawY vh
    let vres := calculateVelocity s lerpedX lerpedY timestamp
    let velocity := vres.1
    let s1 := vres.2
    if velocity.speedSq > VELOCITY_THRESHOLD ^ 2 then (none, s1)
    else if isOutlier s1 lerpedX lerpedY then
      match s1.filteredX, s1.filteredY with
      | some fx, some fy => (some (fx, fy), s1)
      | _, _ => (none, s1)
    else
      let fx := if KALMAN_ENABLED then (kalmanFilter lerpedX s1.kalmanX).1
                else applyLowPassFilter lerpedX s1.filteredX
      let kx := if KALMAN_ENABLED then (kalmanFilter lerpedX s1.kalmanX).2 else s1.kalmanX
      let fy := if KALMAN_ENABLED then (kalmanFilter lerpedY s1.kalmanY).1
                else applyLowPassFilter lerpedY s1.filteredY
      let ky := if KALMAN_ENABLED then (kalmanFilter lerpedY s1.kalmanY).2 else s1.kalmanY
      (some (fx, fy),
        { s1 with filteredX := some fx, filteredY := some fy, kalmanX := kx, kalmanY := ky })

/-- JS array indexing with a possibly negative integer index: negative
indices yield `undefined`. -/
def listGetI {α : Type} (l : List α) (i : ℤ) : Option α :=
  if 0 ≤ i then l.get? i.toNat else none

/-- `getZoneFromY(y)`: zone from the vertical position; the index is
`floor(y / (vh / ZONE_COUNT))` capped above by `ZONE_COUNT - 1`
(`Math.min`); there is no cap below, a negative index would yield
`undefined` just as in JS. -/
def getZoneFromY (y vh : ℚ) : Option String :=
  let zoneHeight := vh / (ZONE_COUNT : ℚ)
  let zoneIndex : ℤ := ⌊y / zoneHeight⌋
  listGetI ZONES (min zoneIndex ((ZONE_COUNT : ℤ) - 1))

/-- `isInSidebar(x)`: inside the fixed-width activation strip. -/
def isInSidebar (x vw : ℚ) : Bool :=
  decide (x ≥ vw - SIDEBAR_WIDTH)

/-- `stopScrolling()` (the interval handle itself is a DOM timer). -/
def stopScrolling (s : State) : State :=
  { s with isScrolling := false, scrollDirection := none }

/-- `handleZoneAction(zone)`: dispatches the zone's action.  The observable
output is the dispatched action name; the only state-object effect is the
`KILL_SWITCH` branch (`stopScrolling` and `isActive = false`; the delayed
re-enable runs in a later timer event, outside this step). -/
def handleZoneAction (s : State) (zone : String) : State × List String :=
  if zone = "KILL_SWITCH" then ({ stopScrolling s with isActive := false }, [zone])
  else (s, [zone])

/-- The zone-hysteresis block of `updateGazePosition` (popup.js lines
1219–1234), for a resolved `zone` at time `now`.  A JS `null`
`zoneSwitchTime` would coerce to `0` in the subtraction (`getD 0`);
that situation is unreachable because `pendingZone` and `zoneSwitchTime`
are always set together. -/
def zoneHysteresis (s : State) (zone : Option String) (now : ℚ) : State :=
  if zone ≠ s.currentZone then
    if zone ≠ s.pendingZone then
      { s with pendingZone := zone, zoneSwitchTime := some now }
    else if now - s.zoneSwitchTime.getD 0 ≥ ZONE_SWITCH_DELAY then
      stopScrolling { s with currentZone := zone, pendingZone := none,
                             dwellStartTime := some now }
    else s
  else
    { s with pendingZone := none }

/-- `updateGazePosition(x, y)` at time `now` (popup.js lines 1205–1256):
moves the display dot (DOM, dropped), then, inside the strip, runs zone
hysteresis and the dwell check, firing `handleZoneAction` and restarting
the dwell when `now - dwellStartTime ≥ DWELL_TIME`; outside the strip it
clears the zone/dwell state.  Returns the new state and the dispatched
actions. -/
def updateGazePosition (s : State) (x y now vw vh : ℚ) : State × List String :=
  if isInSidebar x vw then
    let zone := getZoneFromY y vh
    let s1 := zoneHysteresis s zone now
    match s1.currentZone with
    | some cz =>
      let dwellDuration := now - s1.dwellStartTime.getD 0
      if dwellDuration ≥ DWELL_TIME then
        let fired := handleZoneAction s1 cz
        ({ fired.1 with dwellStartTime := some now }, fired.2)
      else (s1, [])
    | none => (s1, [])
  else
    match s.currentZone with
    | some _ =>
      (stopScrolling { s with currentZone := none, pendingZone := none,
                              dwellStartTime := none }, [])
    | none => (s, [])

/-- The WebGazer gaze listener installed by `initWebGazer`: ignores empty
data, stamps `lastGazeTime`, drops the sample unless active and calibrated,
then runs `processGazeData` and, when a position is produced, the zone and
dwell update.  `nowDate` is `Date.now()`, `perfNow` is `performance.now()`. -/
def gazeListener (s : State) (data : Option (ℚ × ℚ × Option ℚ))
    (nowDate perfNow vw vh : ℚ) : State × List String :=
  match data with
  | none => (s, [])
  | some (dx, dy, conf) =>
    let s0 := { s with lastGazeTime := nowDate }
    if !s0.isActive || !s0.isCalibrated then (s0, [])
    else
      let pres := processGazeData s0 dx dy perfNow conf vw vh
      match pres.1 with
      | some (fx, fy) => updateGazePosition pres.2 fx fy perfNow vw vh
      | none => (pres.2, [])

/-- A run of `updateGazePosition` at a fixed position over a list of
evaluation times, collecting all dispatched actions. -/
def runDwell (x y vw vh : ℚ) : State → List ℚ → State × List String
  | s, [] => (s, [])
  | s, t :: ts =>
    let step := updateGazePosition s x y t vw vh
    let rest := runDwell x y vw vh step.1 ts
    (rest.1, step.2 ++ rest.2)

/-- The `resize` listener of `setup()` (popup.js lines 1278–1290): resets
exactly the filtering fields; the zone/dwell fields are not touched. -/
def resizeReset (s : State) : State :=
  { s with filteredX := none, filteredY := none, gazeBuffer := [],
           lastRawX := none, lastRawY := none, lastTimestamp := none,
           velocityX := 0, velocityY := 0,
           kalmanX := initKalman, kalmanY := initKalman }

end Popup

namespace ContentPy

/-- CONFIG.SIDEBAR_WIDTH in content_python.js. -/
def SIDEBAR_WIDTH : ℚ := 140

/-- CONFIG.ZONE_COUNT in content_python.js. -/
def ZONE_COUNT : ℕ := 5

/-- CONFIG.DWELL_TIME in content_python.js. -/
def DWELL_TIME : ℚ := 600

/-- CONFIG.ZONE_SWITCH_DELAY in content_python.js. -/
def ZONE_SWITCH_DELAY : ℚ := 100

/-- CONFIG.CALIBRATION_POINTS in content_python.js. -/
def CALIBRATION_POINTS : ℕ := 9

/-- CONFIG.CLICKS_PER_POINT in content_python.js. -/
def CLICKS_PER_POINT : ℕ := 2

/-- CONFIG.CURSOR_SMOOTHING in content_python.js. -/
def CURSOR_SMOOTHING : ℚ := 15/100

/-- CONFIG.ZONES in content_python.js. -/
def ZONES : List String := ["SCROLL_UP", "SCROLL_DOWN", "MEDIA", "ASK_AI", "KILL_SWITCH"]

/-- The mutable global `state` object of content_python.js (WebSocket and
animation-frame handles dropped; `storage` is the persisted
`localStorage` calibration flag `sharingan_python_calibrated`). -/
structure PState where
  isActive : Bool
  isConnected : Bool
  isScrolling : Bool
  scrollDirection : Option String
  currentZone : Option String
  pendingZone : Option String
  zoneSwitchTime : Option ℚ
  dwellStartTime : Option ℚ
  gazeX : Option ℚ
  gazeY : Option ℚ
  displayX : Option ℚ
  displayY : Option ℚ
  isCalibrated : Bool
  calibrationClicks : ℕ
  storage : Bool
deriving Repr, DecidableEq

/-- The initial `state` literal of content_python.js, with the persisted
flag as a parameter (it survives the session). -/
def initialPState (storage : Bool) : PState where
  isActive := true
  isConnected := false
  isScrolling := false
  scrollDirection := none
  currentZone := none
  pendingZone := none
  zoneSwitchTime := none
  dwellStartTime := none
  gazeX := none
  gazeY := none
  displayX := none
  displayY := none
  isCalibrated := false
  calibrationClicks := 0
  storage := storage

/-- `finishCalibration()`: marks the session calibrated and persists the
flag (`setCalibrationDone`). -/
def finishCalibration (s : PState) : PState :=
  { s with isCalibrated := true, storage := true }

/-- `resetCalibration()` (recalibrate button): clears the session flag, the
click count and the persisted flag (and tells the server to discard its
fit, an outbound message). -/
def resetCalibration (s : PState) : PState :=
  { s with isCalibrated := false, calibrationClicks := 0, storage := false }

/-- The short-circuit at the top of `createCalibrationOverlay()`: when the
persisted flag is set, the session is marked calibrated and no overlay is
built. -/
def createCalibrationOverlayLoad (s : PState) : PState :=
  if s.storage then { s with isCalibrated := true } else s

/-- The per-dot click counters (`dotClicks`) of the calibration overlay:
one counter per dot; the overlay builds `positions.length = 9` dots. -/
def freshDotClicks : Fin 9 → ℕ := fun _ => 0

/-- One calibration-dot click (the dot's `click` handler): sends the point
to the server (outbound), increments the dot's counter and, when the dot
reaches `CLICKS_PER_POINT`, disables the dot, increments
`state.calibrationClicks` and finishes calibration once
`CALIBRATION_POINTS` dots are complete.  A completed dot has
`pointer-events: none`, so a click on it cannot occur (no-op branch). -/
def calClick (ov : Fin 9 → ℕ) (s : PState) (i : Fin 9) : (Fin 9 → ℕ) × PState :=
  if CLICKS_PER_POINT ≤ ov i then (ov, s)
  else
    let ov2 := Function.update ov i (ov i + 1)
    if CLICKS_PER_POINT ≤ ov i + 1 then
      let s1 := { s with calibrationClicks := s.calibrationClicks + 1 }
      if CALIBRATION_POINTS ≤ s1.calibrationClicks then (ov2, finishCalibration s1)
      else (ov2, s1)
    else (ov2, s)

/-- A sequence of calibration-dot clicks. -/
def runClicks : (Fin 9 → ℕ) × PState → List (Fin 9) → (Fin 9 → ℕ) × PState
  | p, [] => p
  | p, i :: is => runClicks (calClick p.1 p.2 i) is

/-- Inbound WebSocket messages handled by `handleServerMessage`. -/
inductive ServerMessage where
  | gaze (x y : ℚ)
  | frame (image : String)
  | calibrationAck (pointsCollected : ℕ) (isCalibrated : Bool)
  | calibrationReset
deriving Repr, DecidableEq

/-- `handleServerMessage(data)`: a gaze sample only stores the target
position (and only when active and calibrated — `updateGazePosition` just
writes `gazeX`/`gazeY`); a positive `calibration_ack` forces
`finishCalibration`; `calibration_reset` clears the session calibration
(but not the persisted flag). -/
def handleServerMessage (s : PState) : ServerMessage → PState
  | .gaze x y =>
    if s.isActive && s.isCalibrated then { s with gazeX := some x, gazeY := some y } else s
  | .frame _ => s
  | .calibrationAck _ isCal => if isCal then finishCalibration s else s
  | .calibrationReset => { s with isCalibrated := false, calibrationClicks := 0 }

/-- `getZoneFromY(y)` in content_python.js (same formula as popup.js). -/
def getZoneFromY (y vh : ℚ) : Option String :=
  let zoneHeight := vh / (ZONE_COUNT : ℚ)
  let zoneIndex : ℤ := ⌊y / zoneHeight⌋
  Popup.listGetI ZONES (min zoneIndex ((ZONE_COUNT : ℤ) - 1))

/-- `isInSidebar(x)` in content_python.js. -/
def isInSidebar (x vw : ℚ) : Bool :=
  decide (x ≥ vw - SIDEBAR_WIDTH)

/-- `stopScrolling()` in content_python.js (clears only the interval and
the flag; `scrollDirection` is not reset in this version). -/
def stopScrolling (s : PState) : PState :=
  { s with isScrolling := false }

/-- `handleZoneAction(zone)` in content_python.js; observable output is the
dispatched action name, the `KILL_SWITCH` branch stops scrolling and
deactivates (delayed re-enable is a later timer event). -/
def handleZoneAction (s : PState) (zone : String) : PState × List String :=
  if zone = "KILL_SWITCH" then ({ stopScrolling s with isActive := false }, [zone])
  else (s, [zone])

/-- `updateZoneFromGaze(x, y)` at time `now`: zone hysteresis and dwell
evaluation on the smoothed display position (content_python.js lines
693–734; same structure as popup.js's `updateGazePosition`). -/
def updateZoneFromGaze (s : PState) (x y now vw vh : ℚ) : PState × List String :=
  if isInSidebar x vw then
    let zone := getZoneFromY y vh
    let s1 :=
      if zone ≠ s.currentZone then
        if zone ≠ s.pendingZone then
          { s with pendingZone := zone, zoneSwitchTime := some now }
        else if now - s.zoneSwitchTime.getD 0 ≥ ZONE_SWITCH_DELAY then
          stopScrolling { s with currentZone := zone, pendingZone := none,
                                 dwellStartTime := some now }
        else s
      else { s with pendingZone := none }
    match s1.currentZone with
    | some cz =>
      let dwellDuration := now - s1.dwellStartTime.getD 0
      if dwellDuration ≥ DWELL_TIME then
        let fired := handleZoneAction s1 cz
        ({ fired.1 with dwellStartTime := some now }, fired.2)
      else (s1, [])
    | none => (s1, [])
  else
    match s.currentZone with
    | some _ =>
      (stopScrolling { s with currentZone := none, pendingZone := none,
                              dwellStartTime := none }, [])
    | none => (s, [])

/-- One pass of the `animate()` body started by `startCursorAnimation()`:
idle until a gaze target exists, initialise the display position to the
target on first use, move the display position a `CURSOR_SMOOTHING`
fraction toward the target, then run zone detection on the smoothed
position.  Note: this path is not gated on `state.isCalibrated`. -/
def animTick (s : PState) (now vw vh : ℚ) : PState × List String :=
  match s.gazeX, s.gazeY with
  | some gx, some gy =>
    let d0 : ℚ × ℚ :=
      match s.displayX, s.displayY with
      | some dx, some dy => (dx, dy)
      | _, _ => (gx, gy)
    let dx1 := d0.1 + (gx - d0.1) * CURSOR_SMOOTHING
    let dy1 := d0.2 + (gy - d0.2) * CURSOR_SMOOTHING
    let s1 := { s with displayX := some dx1, displayY := some dy1 }
    updateZoneFromGaze s1 dx1 dy1 now vw vh
  | _, _ => (s, [])

/-- Events driving the content_python.js client: an inbound server message
or one animation tick at a given `performance.now()` time. -/
inductive CEvent where
  | message (m : ServerMessage)
  | tick (t : ℚ)
deriving Repr, DecidableEq

/-- One event step; messages dispatch no zone actions themselves. -/
def cstep (vw vh : ℚ) (s : PState) : CEvent → PState × List String
  | .message m => (handleServerMessage s m, [])
  | .tick t => animTick s t vw vh

/-- A run over events, annotating each step with the calibration flag of
the state the step ran on and the actions that step dispatched. -/
def crun (vw vh : ℚ) : PState → List CEvent → PState × List (Bool × List String)
  | s, [] => (s, [])
  | s, e :: es =>
    let st := cstep vw vh s e
    let rest := crun vw vh st.1 es
    (rest.1, (s.isCalibrated, st.2) :: rest.2)

end ContentPy

namespace Popup

/-- The branch condition under which `calculateVelocity` writes the
velocity-tracking fields back into the state: either no prior sample is
stored, or the elapsed time since `lastTimestamp` is positive (the JS
`dt <= 0` early return reuses the old velocity and writes nothing). -/
def willUpdateVelocity (s : State) (timestamp : ℚ) : Bool :=
  match s.lastRawX, s.lastTimestamp with
  | some _, some lastT => decide (0 < (timestamp - lastT) / 1000)
  | _, _ => true

/-- The delay of `recoverWebGazer`'s pause/resume path before it resumes
and stamps `lastGazeTime` (`setTimeout(..., 500)`). -/
def RECOVERY_DELAY : ℚ := 500

/-- The condition under which one watchdog check (the `setInterval`
callback of `startWatchdog`, evaluated with `Date.now() = now`) invokes
`recoverWebGazer`. -/
def watchdogFires (s : State) (now : ℚ) : Bool :=
  s.isCalibrated && s.isWebGazerReady &&
    (decide (0 < s.lastGazeTime) && decide (now - s.lastGazeTime > WATCHDOG_TIMEOUT))

/-- Events touching the watchdog's observations: `initWebGazer` completing
at time `t` (sets `isWebGazerReady`, seeds `lastGazeTime := Date.now()` and
starts the watchdog), a gaze callback at `t` (stamps `lastGazeTime`), and
one watchdog check at `t`. -/
inductive WEvent where
  | init (t : ℚ)
  | sample (t : ℚ)
  | check (t : ℚ)
deriving Repr, DecidableEq

/-- One watchdog-relevant event; the Bool reports whether this event
invoked `recoverWebGazer`.  A firing check's pause/resume recovery stamps
`lastGazeTime` at `t + RECOVERY_DELAY`; it is folded into the check step
because `RECOVERY_DELAY < WATCHDOG_INTERVAL` puts it before the next
check. -/
def wstep (s : State) : WEvent → State × Bool
  | .init t => ({ s with isWebGazerReady := true, lastGazeTime := t }, false)
  | .sample t => ({ s with lastGazeTime := t }, false)
  | .check t =>
    if watchdogFires s t then ({ s with lastGazeTime := t + RECOVERY_DELAY }, true)
    else (s, false)

/-- A run over watchdog events, counting recovery invocations. -/
def wrun : State → List WEvent → State × ℕ
  | s, [] => (s, 0)
  | s, e :: es =>
    let st := wstep s e
    let rest := wrun st.1 es
    (rest.1, (if st.2 then 1 else 0) + rest.2)

/-- Whether an event list contains any gaze sample. -/
def hasSample (l : List WEvent) : Bool :=
  l.any fun e => match e with | .sample _ => true | _ => false

/-- A state whose gate has both a prior filtered position (the origin) and
a prior raw sample at the lerped position of the next sample (so the next
sample has zero velocity but is an outlier). -/
def gateStateSix : State :=
  { initialState with filteredX := some 0, filteredY := some 0,
                      lastRawX := some 500, lastRawY := some 500, lastTimestamp := some 0 }

/-- A state with stored velocity-tracking fields, fed a low-confidence
sample in the C7 counterexample. -/
def gateStateSeven : State :=
  { initialState with lastRawX := some 100, lastRawY := some 100, lastTimestamp := some 0 }

/-- A state with non-initial zone-resolution fields, resized in the C8
counterexample. -/
def zoneStateEight : State :=
  { initialState with currentZone := some "MEDIA", pendingZone := some "ASK_AI",
                      zoneSwitchTime := some 7, dwellStartTime := some 42 }

/-- A calibrated state tracking the fourth zone with dwell started at 0,
used for concrete dwell-machine evaluations. -/
def dwellTracking : State :=
  { initialState with isCalibrated := true, currentZone := some "ASK_AI",
                      dwellStartTime := some 0 }

/-- A calibrated, initialised state whose last gaze stamp is 1000, used for
concrete watchdog evaluations. -/
def watchdogReady : State :=
  { initialState with isCalibrated := true, isWebGazerReady := true, lastGazeTime := 1000 }

end Popup

namespace ContentPy

/-- The event trace of the C1 counterexample: the server acknowledges
calibration, one gaze sample lands in the fourth zone of a 1000×800
viewport, two animation ticks commit the zone, the server resets
calibration, and a later tick fires the zone action while the gate is
open. -/
def resetTrace : List CEvent :=
  [ .message (.calibrationAck 18 true),
    .message (.gaze 950 500),
    .tick 0,
    .tick 100,
    .message .calibrationReset,
    .tick 700 ]

/-- The canonical calibration run: each of the 9 dots clicked
`CLICKS_PER_POINT = 2` times, 18 clicks in all. -/
def canonicalClicks : List (Fin 9) :=
  [0, 0, 1, 1, 2, 2, 3, 3, 4, 4, 5, 5, 6, 6, 7, 7, 8, 8]

/-- The invariant tying the overlay's per-dot counters to the session
state during a calibration run started from a fresh (unpersisted)
session: counters are capped at `CLICKS_PER_POINT`, `calibrationClicks`
counts completed dots, the session flag is exactly "all
`CALIBRATION_POINTS` dots complete", and the persisted flag mirrors it. -/
def CalInv (ov : Fin 9 → ℕ) (s : PState) : Prop :=
  (∀ i, ov i ≤ CLICKS_PER_POINT) ∧
  s.calibrationClicks = (Finset.univ.filter fun i => ov i = CLICKS_PER_POINT).card ∧
  s.isCalibrated = decide (CALIBRATION_POINTS ≤ s.calibrationClicks) ∧
  s.storage = s.isCalibrated

end ContentPy

namespace Popup

/-- A kalman-only specialisation: the per-axis filter state after `n`
repetitions of the same measurement `M`. -/
def kalmanIterate (M : ℚ) (ks : KalmanState) : ℕ → KalmanState
  | 0 => ks
  | n + 1 => (kalmanFilter M (kalmanIterate M ks n)).2

/-- The initial state with the persisted calibration flag already loaded
(`createCalibrationOverlay` short-circuit), as the watchdog sees it. -/
def calibratedInit : State :=
  { initialState with isCalibrated := true }

end Popup

section Helpers

/-- `calculateVelocity` never touches the filter estimates. -/
lemma calculateVelocity_keeps_filter (s : Popup.State) (a b t : ℚ) :
    (Popup.calculateVelocity s a b t).2.filteredX = s.filteredX ∧
    (Popup.calculateVelocity s a b t).2.filteredY = s.filteredY ∧
    (Popup.calculateVelocity s a b t).2.kalmanX = s.kalmanX ∧
    (Popup.calculateVelocity s a b t).2.kalmanY = s.kalmanY := by
  unfold Popup.calculateVelocity
  rcases hx : s.lastRawX with _ | lx <;> rcases ht : s.lastTimestamp with _ | lt <;>
    simp only [] <;> first
      | simp
      | (split <;> simp)

/-- `calculateVelocity` writes the velocity-tracking fields whenever the
write-back branch condition holds. -/
lemma calculateVelocity_updates (s : Popup.State) (a b t : ℚ)
    (h : Popup.willUpdateVelocity s t = true) :
    (Popup.calculateVelocity s a b t).2.lastRawX = some a ∧
    (Popup.calculateVelocity s a b t).2.lastRawY = some b ∧
    (Popup.calculateVelocity s a b t).2.lastTimestamp = some t := by
  unfold Popup.willUpdateVelocity at h
  unfold Popup.calculateVelocity
  rcases hx : s.lastRawX with _ | lx <;> rcases ht : s.lastTimestamp with _ | lt <;>
    simp only [hx, ht] at h ⊢ <;> try simp
  have hdt : ¬ ((t - lt) / 1000 ≤ 0) := by
    simpa using h
  simp [hdt]

end Helpers

section Helpers2

/-- Writing `pendingZone := none` into a state whose `pendingZone` is
already `none` is the identity. -/
lemma update_pendingZone_self (s : Popup.State) (h : s.pendingZone = none) :
    { s with pendingZone := none } = s := by
  cases s
  simp only at h
  simp [h]

/-- The hysteresis block when the resolved zone equals the current zone:
only the pending candidate is cleared. -/
lemma zoneHysteresis_same (s : Popup.State) (z : String) (now : ℚ)
    (h : s.currentZone = some z) :
    Popup.zoneHysteresis s (some z) now = { s with pendingZone := none } := by
  unfold Popup.zoneHysteresis
  rw [h]
  simp

/-- The hysteresis block on a fresh differing candidate: it is only
recorded as pending. -/
lemma zoneHysteresis_newPending (s : Popup.State) (z : Option String) (now : ℚ)
    (hc : z ≠ s.currentZone) (hp : z ≠ s.pendingZone) :
    Popup.zoneHysteresis s z now = { s with pendingZone := z, zoneSwitchTime := some now } := by
  unfold Popup.zoneHysteresis
  rw [if_pos hc, if_pos hp]

end Helpers2

/-- Claim C3 (confirmed): a position is in the activation strip iff
`x ≥ vw - 140`; inside the strip the resolved zone is the one at index
`floor(y / (vh / 5))` capped at `4` (for the nonnegative `y` the filter
produces, capping below at `0` is vacuous); concretely, on a `1000×800`
viewport the filtered position `(950, 500)` is in the strip and resolves
to the zone at index `3` (`ASK_AI`, covering `y ∈ 480–640`). -/
theorem zoneResolver_strip_and_index_c3 :
    (∀ x vw : ℚ, Popup.isInSidebar x vw = true ↔ vw - 140 ≤ x) ∧
    (∀ y vh : ℚ, 0 < vh → 0 ≤ y →
      Popup.getZoneFromY y vh = Popup.ZONES.get? (min (⌊y / (vh / 5)⌋).toNat 4)) ∧
    Popup.isInSidebar 950 1000 = true ∧
    Popup.getZoneFromY 500 800 = Popup.ZONES.get? 3 ∧
    Popup.ZONES.get? 3 = some "ASK_AI" := by
  have hgen : ∀ y vh : ℚ, 0 < vh → 0 ≤ y →
      Popup.getZoneFromY y vh = Popup.ZONES.get? (min (⌊y / (vh / 5)⌋).toNat 4) := by
    intro y vh hvh hy
    unfold Popup.getZoneFromY Popup.listGetI
    have h5 : ((Popup.ZONE_COUNT : ℕ) : ℚ) = 5 := by norm_num [Popup.ZONE_COUNT]
    have h4 : ((Popup.ZONE_COUNT : ℕ) : ℤ) - 1 = 4 := by norm_num [Popup.ZONE_COUNT]
    rw [h5, h4]
    have hfl : 0 ≤ ⌊y / (vh / 5)⌋ :=
      Int.floor_nonneg.mpr (div_nonneg hy (by positivity))
    rw [if_pos (le_min hfl (by norm_num))]
    congr 1
    omega
  have hside : Popup.isInSidebar 950 1000 = true := by
    norm_num [Popup.isInSidebar, Popup.SIDEBAR_WIDTH]
  have hfloor : ⌊(500 : ℚ) / (800 / 5)⌋ = 3 := by
    norm_num [Int.floor_eq_iff]
  refine ⟨fun x vw => ?_, hgen, hside, ?_, by norm_num [Popup.ZONES]⟩
  · simp [Popup.isInSidebar, Popup.SIDEBAR_WIDTH, ge_iff_le]
  · rw [hgen 500 800 (by norm_num) (by norm_num), hfloor]
    norm_num
    congr 1

/-- Claim C8 (corrected): the viewport-resize listener resets every
`FilterState` field (filtered coordinates, moving-average buffer, last raw
coordinate and timestamp, velocities, both per-axis Kalman states) to its
initial value, but it leaves the `ZoneResolutionState` fields
(`currentZone`, `pendingZone`, `zoneSwitchTime`, `dwellStartTime`)
untouched. -/
theorem resize_resets_filter_only_c8 :
    ∀ s : Popup.State,
      (Popup.resizeReset s).filteredX = none ∧
      (Popup.resizeReset s).filteredY = none ∧
      (Popup.resizeReset s).gazeBuffer = [] ∧
      (Popup.resizeReset s).lastRawX = none ∧
      (Popup.resizeReset s).lastRawY = none ∧
      (Popup.resizeReset s).lastTimestamp = none ∧
      (Popup.resizeReset s).velocityX = 0 ∧
      (Popup.resizeReset s).velocityY = 0 ∧
      (Popup.resizeReset s).kalmanX = Popup.initKalman ∧
      (Popup.resizeReset s).kalmanY = Popup.initKalman ∧
      (Popup.resizeReset s).currentZone = s.currentZone ∧
      (Popup.resizeReset s).pendingZone = s.pendingZone ∧
      (Popup.resizeReset s).zoneSwitchTime = s.zoneSwitchTime ∧
      (Popup.resizeReset s).dwellStartTime = s.dwellStartTime := by
  intro s
  simp [Popup.resizeReset]

/-- Counterexample to claim C8 as stated: resizing in a state that is
tracking a zone keeps the whole `ZoneResolutionState` (here a current
zone, a pending zone, a switch time and a running dwell) instead of
resetting it to its initial (`none`) values. -/
theorem resize_keeps_zone_state_c8_cex :
    (Popup.resizeReset Popup.zoneStateEight).currentZone = some "MEDIA" ∧
    (Popup.resizeReset Popup.zoneStateEight).pendingZone = some "ASK_AI" ∧
    (Popup.resizeReset Popup.zoneStateEight).dwellStartTime = some 42 ∧
    Popup.initialState.currentZone = none ∧
    some "MEDIA" ≠ (none : Option String) := by
  refine ⟨rfl, rfl, rfl, rfl, by simp⟩

/-- Claim C10 (corrected): the watchdog is inert when calibration is not
done, and inert while `lastGazeTime = 0` (before `initWebGazer` arms it);
once a check fires, the pause/resume recovery restamps `lastGazeTime`
(`t + RECOVERY_DELAY`), so no further check fires until a fresh
`WATCHDOG_TIMEOUT` has elapsed again — in particular the very next check,
one `WATCHDOG_INTERVAL` later, never fires: one recovery per detected
freeze, not one per check.  The claim's other half — that the watchdog
invokes nothing when no sample was ever received — fails, because
`initWebGazer` seeds `lastGazeTime` with the init time (see the
counterexample). -/
theorem watchdog_once_per_freeze_c10 :
    (∀ (s : Popup.State) (t : ℚ), s.isCalibrated = false → Popup.watchdogFires s t = false) ∧
    (∀ (s : Popup.State) (t : ℚ), s.lastGazeTime = 0 → Popup.watchdogFires s t = false) ∧
    (∀ (s : Popup.State) (t t2 : ℚ), Popup.watchdogFires s t = true →
      t2 ≤ t + Popup.WATCHDOG_TIMEOUT + Popup.RECOVERY_DELAY →
      Popup.watchdogFires (Popup.wstep s (.check t)).1 t2 = false) ∧
    (∀ (s : Popup.State) (t : ℚ), Popup.watchdogFires s t = true →
      Popup.watchdogFires (Popup.wstep s (.check t)).1 (t + Popup.WATCHDOG_INTERVAL) = false) ∧
    Popup.watchdogFires Popup.watchdogReady 7000 = true ∧
    Popup.watchdogFires (Popup.wstep Popup.watchdogReady (.check 7000)).1
      (7000 + Popup.WATCHDOG_INTERVAL) = false := by
  have h3 : ∀ (s : Popup.State) (t t2 : ℚ), Popup.watchdogFires s t = true →
      t2 ≤ t + Popup.WATCHDOG_TIMEOUT + Popup.RECOVERY_DELAY →
      Popup.watchdogFires (Popup.wstep s (.check t)).1 t2 = false := by
    intro s t t2 hf ht2
    have hw : Popup.wstep s (.check t)
        = ({ s with lastGazeTime := t + Popup.RECOVERY_DELAY }, true) := by
      simp [Popup.wstep, hf]
    have hnot : ¬ (t2 - (t + Popup.RECOVERY_DELAY) > Popup.WATCHDOG_TIMEOUT) := by
      unfold Popup.WATCHDOG_TIMEOUT Popup.RECOVERY_DELAY at ht2 ⊢
      linarith
    rw [hw]
    simp [Popup.watchdogFires, hnot]
  have hfire : Popup.watchdogFires Popup.watchdogReady 7000 = true := by
    norm_num [Popup.watchdogFires, Popup.watchdogReady, Popup.initialState,
      Popup.WATCHDOG_TIMEOUT]
  refine ⟨?_, ?_, h3, ?_, hfire, ?_⟩
  · intro s t h
    simp [Popup.watchdogFires, h]
  · intro s t h
    simp [Popup.watchdogFires, h]
  · intro s t hf
    refine h3 s t _ hf ?_
    unfold Popup.WATCHDOG_INTERVAL Popup.WATCHDOG_TIMEOUT Popup.RECOVERY_DELAY
    linarith
  · refine h3 _ _ _ hfire ?_
    unfold Popup.WATCHDOG_INTERVAL Popup.WATCHDOG_TIMEOUT Popup.RECOVERY_DELAY
    linarith

/-- Counterexample to claim C10 as stated: a calibrated session in which
`initWebGazer` completes at time 1000 and *no gaze sample ever arrives*
still invokes recovery at the check at time 7000, because `initWebGazer`
seeds `lastGazeTime` with the init time; the claim says the watchdog
invokes no recovery action at all when no sample has ever been received. -/
theorem watchdog_without_sample_c10_cex :
    (Popup.wrun Popup.calibratedInit
      [.init 1000, .check 4000, .check 7000]).2 = 1 ∧
    Popup.hasSample [Popup.WEvent.init 1000, .check 4000, .check 7000] = false ∧
    Popup.calibratedInit.isCalibrated = true := by
  have h1 : Popup.watchdogFires
      { Popup.calibratedInit with isWebGazerReady := true, lastGazeTime := 1000 } 4000
        = false := by
    norm_num [Popup.watchdogFires, Popup.calibratedInit, Popup.initialState,
      Popup.WATCHDOG_TIMEOUT]
  have h2 : Popup.watchdogFires
      { Popup.calibratedInit with isWebGazerReady := true, lastGazeTime := 1000 } 7000
        = true := by
    norm_num [Popup.watchdogFires, Popup.calibratedInit, Popup.initialState,
      Popup.WATCHDOG_TIMEOUT]
  refine ⟨?_, rfl, rfl⟩
  simp [Popup.wrun, Popup.wstep, h1, h2]

/-- Claim C1 (corrected): processing a gaze *sample* while calibration is
not done dispatches nothing in either client — the WebGazer listener drops
the sample before the pipeline runs, and the Python-mode message handler
does not even store it.  The claim's wider clause — that no zone action is
invoked by the gaze-processing path while the gate is open — fails in the
Python-mode client, whose animation loop keeps evaluating a stale gaze
target after a calibration reset (see the counterexample). -/
theorem calibration_gate_per_sample_c1 :
    (∀ (s : Popup.State) (d : Option (ℚ × ℚ × Option ℚ)) (nd pn vw vh : ℚ),
      s.isCalibrated = false → (Popup.gazeListener s d nd pn vw vh).2 = []) ∧
    (∀ (s : ContentPy.PState) (x y : ℚ),
      s.isCalibrated = false → ContentPy.handleServerMessage s (.gaze x y) = s) ∧
    (Popup.gazeListener Popup.initialState (some (400, 300, none)) 5 5 1000 800).2 = [] ∧
    ContentPy.handleServerMessage (ContentPy.initialPState false) (.gaze 950 500)
      = ContentPy.initialPState false := by
  have hpy : ∀ (s : ContentPy.PState) (x y : ℚ),
      s.isCalibrated = false → ContentPy.handleServerMessage s (.gaze x y) = s := by
    intro s x y h
    simp [ContentPy.handleServerMessage, h]
  have hpop : ∀ (s : Popup.State) (d : Option (ℚ × ℚ × Option ℚ)) (nd pn vw vh : ℚ),
      s.isCalibrated = false → (Popup.gazeListener s d nd pn vw vh).2 = [] := by
    intro s d nd pn vw vh h
    cases d with
    | none => rfl
    | some dxx =>
      obtain ⟨dx, dy, conf⟩ := dxx
      simp [Popup.gazeListener, h]
  exact ⟨hpop, hpy, hpop _ _ _ _ _ _ rfl, hpy _ _ _ rfl⟩

/-- Counterexample to claim C1's clause that no zone action is invoked by
the gaze-processing path while the calibration gate is open: in the
Python-mode client, running `resetTrace` (calibrate, one gaze sample at
`(950, 500)` on a 1000×800 viewport, two animation ticks that commit zone
`ASK_AI`, a `calibration_reset`, one more tick at 700 ms) produces a step
that dispatches `ASK_AI` while `isCalibrated` is `false` — the annotated
run contains the pair `(false, ["ASK_AI"])`. -/
theorem gaze_path_fires_while_uncalibrated_c1_cex :
    (false, ["ASK_AI"]) ∈
      (ContentPy.crun 1000 800 (ContentPy.initialPState false) ContentPy.resetTrace).2 := by
  have hz : ContentPy.getZoneFromY 500 800 = some "ASK_AI" := by
    norm_num [ContentPy.getZoneFromY, ContentPy.ZONE_COUNT, ContentPy.ZONES, Popup.listGetI]
    rfl
  have hs : ContentPy.isInSidebar 950 1000 = true := by
    norm_num [ContentPy.isInSidebar, ContentPy.SIDEBAR_WIDTH]
  have harith : (950:ℚ) + (950 - 950) * ContentPy.CURSOR_SMOOTHING = 950 := by norm_num
  have harith2 : (500:ℚ) + (500 - 500) * ContentPy.CURSOR_SMOOTHING = 500 := by norm_num
  have h1 : ContentPy.cstep 1000 800 (ContentPy.initialPState false)
      (.message (.calibrationAck 18 true)) =
      (⟨true, false, false, none, none, none, none, none, none, none, none, none,
        true, 0, true⟩, []) := by
    rfl
  have h2 : ContentPy.cstep 1000 800
      ⟨true, false, false, none, none, none, none, none, none, none, none, none,
        true, 0, true⟩ (.message (.gaze 950 500)) =
      (⟨true, false, false, none, none, none, none, none, some 950, some 500, none, none,
        true, 0, true⟩, []) := by
    rfl
  have h3 : ContentPy.cstep 1000 800
      ⟨true, false, false, none, none, none, none, none, some 950, some 500, none, none,
        true, 0, true⟩ (.tick 0) =
      (⟨true, false, false, none, none, some "ASK_AI", some 0, none, some 950, some 500,
        some 950, some 500, true, 0, true⟩, []) := by
    simp [ContentPy.cstep, ContentPy.animTick, harith, harith2, hz, hs,
      ContentPy.updateZoneFromGaze]
  have h4 : ContentPy.cstep 1000 800
      ⟨true, false, false, none, none, some "ASK_AI", some 0, none, some 950, some 500,
        some 950, some 500, true, 0, true⟩ (.tick 100) =
      (⟨true, false, false, none, some "ASK_AI", none, some 0, some 100, some 950, some 500,
        some 950, some 500, true, 0, true⟩, []) := by
    simp [ContentPy.cstep, ContentPy.animTick, harith, harith2, hz, hs,
      ContentPy.updateZoneFromGaze, ContentPy.ZONE_SWITCH_DELAY, ContentPy.DWELL_TIME,
      ContentPy.stopScrolling]
  have h5 : ContentPy.cstep 1000 800
      ⟨true, false, false, none, some "ASK_AI", none, some 0, some 100, some 950, some 500,
        some 950, some 500, true, 0, true⟩ (.message .calibrationReset) =
      (⟨true, false, false, none, some "ASK_AI", none, some 0, some 100, some 950, some 500,
        some 950, some 500, false, 0, true⟩, []) := by
    rfl
  have h6 : ContentPy.cstep 1000 800
      ⟨true, false, false, none, some "ASK_AI", none, some 0, some 100, some 950, some 500,
        some 950, some 500, false, 0, true⟩ (.tick 700) =
      (⟨true, false, false, none, some "ASK_AI", none, some 0, some 700, some 950, some 500,
        some 950, some 500, false, 0, true⟩, ["ASK_AI"]) := by
    simp [ContentPy.cstep, ContentPy.animTick, harith, harith2, hz, hs,
      ContentPy.updateZoneFromGaze, ContentPy.ZONE_SWITCH_DELAY, ContentPy.DWELL_TIME,
      ContentPy.handleZoneAction, ContentPy.stopScrolling]
    norm_num
  simp only [ContentPy.resetTrace, ContentPy.crun, h1, h2, h3, h4, h5, h6]
  simp

/-- Claim C4 (confirmed): a single-tick zone flicker — the resolved zone
differs from `currentZone` for exactly one evaluation (so the previous
evaluation left `pendingZone` clear) and reverts on the next — never
commits a zone switch and never resets the dwell progress: after the
flicker evaluation and after the reverting evaluation, `currentZone` and
`dwellStartTime` are those of the starting state (and the pending
candidate is cleared again).  The concrete conjuncts run the flicker
`ASK_AI → MEDIA → ASK_AI` on a tracking state. -/
theorem hysteresis_single_flicker_c4 :
    (∀ (s : Popup.State) (z c : String) (t1 t2 : ℚ),
      s.currentZone = some c → s.pendingZone = none → z ≠ c →
      t2 - t1 < Popup.ZONE_SWITCH_DELAY →
      (Popup.zoneHysteresis s (some z) t1).currentZone = s.currentZone ∧
      (Popup.zoneHysteresis s (some z) t1).dwellStartTime = s.dwellStartTime ∧
      (Popup.zoneHysteresis (Popup.zoneHysteresis s (some z) t1) (some c) t2).currentZone
        = s.currentZone ∧
      (Popup.zoneHysteresis (Popup.zoneHysteresis s (some z) t1) (some c) t2).dwellStartTime
        = s.dwellStartTime ∧
      (Popup.zoneHysteresis (Popup.zoneHysteresis s (some z) t1) (some c) t2).pendingZone
        = none) ∧
    (Popup.zoneHysteresis (Popup.zoneHysteresis Popup.dwellTracking (some "MEDIA") 0)
        (some "ASK_AI") 50).currentZone = some "ASK_AI" ∧
    (Popup.zoneHysteresis (Popup.zoneHysteresis Popup.dwellTracking (some "MEDIA") 0)
        (some "ASK_AI") 50).dwellStartTime = some 0 := by
  have hgen : ∀ (s : Popup.State) (z c : String) (t1 t2 : ℚ),
      s.currentZone = some c → s.pendingZone = none → z ≠ c →
      t2 - t1 < Popup.ZONE_SWITCH_DELAY →
      (Popup.zoneHysteresis s (some z) t1).currentZone = s.currentZone ∧
      (Popup.zoneHysteresis s (some z) t1).dwellStartTime = s.dwellStartTime ∧
      (Popup.zoneHysteresis (Popup.zoneHysteresis s (some z) t1) (some c) t2).currentZone
        = s.currentZone ∧
      (Popup.zoneHysteresis (Popup.zoneHysteresis s (some z) t1) (some c) t2).dwellStartTime
        = s.dwellStartTime ∧
      (Popup.zoneHysteresis (Popup.zoneHysteresis s (some z) t1) (some c) t2).pendingZone
        = none := by
    intro s z c t1 t2 hc hp hzc hdelay
    have h1 : Popup.zoneHysteresis s (some z) t1
        = { s with pendingZone := some z, zoneSwitchTime := some t1 } := by
      refine zoneHysteresis_newPending s (some z) t1 ?_ ?_
      · rw [hc]
        simp [hzc]
      · rw [hp]
        simp
    have h2 : Popup.zoneHysteresis { s with pendingZone := some z, zoneSwitchTime := some t1 }
        (some c) t2
        = { s with pendingZone := none, zoneSwitchTime := some t1 } := by
      have := zoneHysteresis_same
        { s with pendingZone := some z, zoneSwitchTime := some t1 } c t2 (by simpa using hc)
      simpa using this
    rw [h1, h2]
    simp
  have hconc := hgen Popup.dwellTracking "MEDIA" "ASK_AI" 0 50 rfl rfl
    (by decide) (by norm_num [Popup.ZONE_SWITCH_DELAY])
  exact ⟨hgen, hconc.2.2.1, hconc.2.2.2.1⟩

/-- Claim C7 (corrected): a sample that passes the confidence check
updates the velocity-tracking fields (`lastRawX`, `lastRawY`,
`lastTimestamp`) regardless of whether it is then accepted, rejected as a
saccade or rejected as an outlier — provided the write-back branch of
`calculateVelocity` is taken (no prior sample, or the elapsed time is
positive).  Low-confidence samples, however, are rejected *before*
`calculateVelocity` runs and update nothing (see the counterexample).
The concrete conjunct exercises an outlier-rejected sample. -/
theorem velocity_fields_update_c7 :
    (∀ (s : Popup.State) (rawX rawY timestamp : ℚ) (conf : Option ℚ) (vw vh : ℚ),
      Popup.confidenceReject conf = false →
      Popup.willUpdateVelocity s timestamp = true →
      (Popup.processGazeData s rawX rawY timestamp conf vw vh).2.lastRawX
          = some (Popup.lerpCoordinate rawX vw) ∧
      (Popup.processGazeData s rawX rawY timestamp conf vw vh).2.lastRawY
          = some (Popup.lerpCoordinate rawY vh) ∧
      (Popup.processGazeData s rawX rawY timestamp conf vw vh).2.lastTimestamp
          = some timestamp) ∧
    (Popup.processGazeData Popup.gateStateSix 500 500 1000 none 1000 1000).2.lastRawX
      = some (Popup.lerpCoordinate 500 1000) ∧
    (Popup.processGazeData Popup.gateStateSix 500 500 1000 none 1000 1000).2.lastTimestamp
      = some 1000 := by
  have hgen : ∀ (s : Popup.State) (rawX rawY timestamp : ℚ) (conf : Option ℚ) (vw vh : ℚ),
      Popup.confidenceReject conf = false →
      Popup.willUpdateVelocity s timestamp = true →
      (Popup.processGazeData s rawX rawY timestamp conf vw vh).2.lastRawX
          = some (Popup.lerpCoordinate rawX vw) ∧
      (Popup.processGazeData s rawX rawY timestamp conf vw vh).2.lastRawY
          = some (Popup.lerpCoordinate rawY vh) ∧
      (Popup.processGazeData s rawX rawY timestamp conf vw vh).2.lastTimestamp
          = some timestamp := by
    intro s rawX rawY timestamp conf vw vh hconf hupd
    obtain ⟨ha, hb, hc⟩ := calculateVelocity_updates s (Popup.lerpCoordinate rawX vw)
      (Popup.lerpCoordinate rawY vh) timestamp hupd
    simp only [Popup.processGazeData, hconf, Bool.false_eq_true, if_false]
    split
    · exact ⟨ha, hb, hc⟩
    · split
      · split
        · exact ⟨ha, hb, hc⟩
        · exact ⟨ha, hb, hc⟩
      · simp only []
        exact ⟨ha, hb, hc⟩
  have happ := hgen Popup.gateStateSix 500 500 1000 none 1000 1000 rfl
    (by norm_num [Popup.willUpdateVelocity, Popup.gateStateSix, Popup.initialState])
  exact ⟨hgen, happ.1, happ.2.2⟩

/-- Counterexample to claim C7 as stated: a low-confidence sample
(confidence `1/10 < MIN_CONFIDENCE`) is rejected at step 1 of
`processGazeData`, *before* `calculateVelocity` runs, and the state —
including `lastRawX` and `lastTimestamp` — is returned entirely
unchanged; the claim says the velocity-tracking fields are updated for
samples rejected for low confidence too. -/
theorem velocity_fields_not_updated_c7_cex :
    Popup.processGazeData Popup.gateStateSeven 500 500 1000 (some (1/10)) 1000 1000
      = (none, Popup.gateStateSeven) ∧
    Popup.gateStateSeven.lastTimestamp = some 0 ∧
    Popup.gateStateSeven.lastRawX = some 100 ∧
    (0 : ℚ) ≠ 1000 := by
  have hconf : Popup.confidenceReject (some (1/10)) = true := by
    norm_num [Popup.confidenceReject, Popup.MIN_CONFIDENCE]
  refine ⟨?_, rfl, rfl, by norm_num⟩
  simp only [Popup.processGazeData]
  rw [hconf]
  simp

/-- Claim C6 (confirmed): a sample that reaches the outlier check (it
passed the confidence and saccade vetoes) and whose normalised position is
farther than `OUTLIER_THRESHOLD` from the prior filtered position is
rejected with the prior filtered position returned verbatim as a
hold-steady replacement, and the filter estimates (`filteredX`,
`filteredY`, both Kalman states) are untouched.  When no prior filtered
position exists, `isOutlier` is false, so an outlier rejection (and hence
the no-replacement case) cannot occur at all.  The concrete conjuncts run
an outlier sample against a state whose prior filtered position is the
origin. -/
theorem outlier_hold_steady_c6 :
    (∀ (s : Popup.State) (rawX rawY timestamp : ℚ) (conf : Option ℚ) (vw vh fx fy : ℚ),
      s.filteredX = some fx → s.filteredY = some fy →
      Popup.confidenceReject conf = false →
      (Popup.calculateVelocity s (Popup.lerpCoordinate rawX vw)
          (Popup.lerpCoordinate rawY vh) timestamp).1.speedSq ≤ Popup.VELOCITY_THRESHOLD ^ 2 →
      Popup.OUTLIER_THRESHOLD ^ 2 <
        (Popup.lerpCoordinate rawX vw - fx) ^ 2 + (Popup.lerpCoordinate rawY vh - fy) ^ 2 →
      (Popup.processGazeData s rawX rawY timestamp conf vw vh).1 = some (fx, fy) ∧
      (Popup.processGazeData s rawX rawY timestamp conf vw vh).2.filteredX = s.filteredX ∧
      (Popup.processGazeData s rawX rawY timestamp conf vw vh).2.filteredY = s.filteredY ∧
      (Popup.processGazeData s rawX rawY timestamp conf vw vh).2.kalmanX = s.kalmanX ∧
      (Popup.processGazeData s rawX rawY timestamp conf vw vh).2.kalmanY = s.kalmanY) ∧
    (∀ (s : Popup.State) (a b : ℚ), s.filteredX = none → Popup.isOutlier s a b = false) ∧
    (Popup.processGazeData Popup.gateStateSix 500 500 1000 none 1000 1000).1 = some (0, 0) ∧
    (Popup.processGazeData Popup.gateStateSix 500 500 1000 none 1000 1000).2.kalmanX
      = Popup.gateStateSix.kalmanX := by
  have hgen : ∀ (s : Popup.State) (rawX rawY timestamp : ℚ) (conf : Option ℚ) (vw vh fx fy : ℚ),
      s.filteredX = some fx → s.filteredY = some fy →
      Popup.confidenceReject conf = false →
      (Popup.calculateVelocity s (Popup.lerpCoordinate rawX vw)
          (Popup.lerpCoordinate rawY vh) timestamp).1.speedSq ≤ Popup.VELOCITY_THRESHOLD ^ 2 →
      Popup.OUTLIER_THRESHOLD ^ 2 <
        (Popup.lerpCoordinate rawX vw - fx) ^ 2 + (Popup.lerpCoordinate rawY vh - fy) ^ 2 →
      (Popup.processGazeData s rawX rawY timestamp conf vw vh).1 = some (fx, fy) ∧
      (Popup.processGazeData s rawX rawY timestamp conf vw vh).2.filteredX = s.filteredX ∧
      (Popup.processGazeData s rawX rawY timestamp conf vw vh).2.filteredY = s.filteredY ∧
      (Popup.processGazeData s rawX rawY timestamp conf vw vh).2.kalmanX = s.kalmanX ∧
      (Popup.processGazeData s rawX rawY timestamp conf vw vh).2.kalmanY = s.kalmanY := by
    intro s rawX rawY timestamp conf vw vh fx fy hX hY hconf hspeed hdist
    obtain ⟨hfx, hfy, hkx, hky⟩ := calculateVelocity_keeps_filter s
      (Popup.lerpCoordinate rawX vw) (Popup.lerpCoordinate rawY vh) timestamp
    have h1 : (Popup.calculateVelocity s (Popup.lerpCoordinate rawX vw)
        (Popup.lerpCoordinate rawY vh) timestamp).2.filteredX = some fx := hfx.trans hX
    have h2 : (Popup.calculateVelocity s (Popup.lerpCoordinate rawX vw)
        (Popup.lerpCoordinate rawY vh) timestamp).2.filteredY = some fy := hfy.trans hY
    have hiso : Popup.isOutlier (Popup.calculateVelocity s (Popup.lerpCoordinate rawX vw)
        (Popup.lerpCoordinate rawY vh) timestamp).2 (Popup.lerpCoordinate rawX vw)
        (Popup.lerpCoordinate rawY vh) = true := by
      simp only [Popup.isOutlier, h1, h2]
      exact decide_eq_true hdist
    have hnspeed : ¬ (Popup.VELOCITY_THRESHOLD ^ 2 <
        (Popup.calculateVelocity s (Popup.lerpCoordinate rawX vw)
          (Popup.lerpCoordinate rawY vh) timestamp).1.speedSq) := not_lt.mpr hspeed
    simp only [Popup.processGazeData, hconf, Bool.false_eq_true, if_false]
    rw [if_neg hnspeed]
    rw [hiso]
    simp only [if_true]
    simp only [h1, h2]
    exact ⟨trivial, hX.symm, hY.symm, hkx, hky⟩
  have hsp : (Popup.calculateVelocity Popup.gateStateSix (Popup.lerpCoordinate 500 1000)
      (Popup.lerpCoordinate 500 1000) 1000).1.speedSq ≤ Popup.VELOCITY_THRESHOLD ^ 2 := by
    norm_num [Popup.calculateVelocity, Popup.gateStateSix, Popup.initialState,
      Popup.lerpCoordinate, Popup.LERP_MARGIN, Popup.VELOCITY_THRESHOLD]
  have hd : Popup.OUTLIER_THRESHOLD ^ 2 <
      (Popup.lerpCoordinate 500 1000 - 0) ^ 2 + (Popup.lerpCoordinate 500 1000 - 0) ^ 2 := by
    norm_num [Popup.lerpCoordinate, Popup.LERP_MARGIN, Popup.OUTLIER_THRESHOLD]
  have happ := hgen Popup.gateStateSix 500 500 1000 none 1000 1000 0 0 rfl rfl rfl hsp hd
  refine ⟨hgen, ?_, happ.1, happ.2.2.2.1⟩
  intro s a b h
  simp [Popup.isOutlier, h]

lemma handleZoneAction_acts (s : Popup.State) (z : String) :
    (Popup.handleZoneAction s z).2 = [z] := by
  unfold Popup.handleZoneAction
  split <;> rfl

lemma handleZoneAction_zoneFields (s : Popup.State) (z : String) :
    (Popup.handleZoneAction s z).1.currentZone = s.currentZone ∧
    (Popup.handleZoneAction s z).1.pendingZone = s.pendingZone := by
  unfold Popup.handleZoneAction Popup.stopScrolling
  split <;> simp

lemma dwellStep_noFire (s : Popup.State) (x y now vw vh t0 : ℚ) (z : String)
    (hx : Popup.isInSidebar x vw = true) (hy : Popup.getZoneFromY y vh = some z)
    (hcz : s.currentZone = some z) (hp : s.pendingZone = none)
    (hd : s.dwellStartTime = some t0) (hlt : now - t0 < Popup.DWELL_TIME) :
    Popup.updateGazePosition s x y now vw vh = (s, []) := by
  have hhys : Popup.zoneHysteresis s (Popup.getZoneFromY y vh) now = s := by
    rw [hy, zoneHysteresis_same s z now hcz]
    exact update_pendingZone_self s hp
  unfold Popup.updateGazePosition
  rw [hx, if_pos rfl]
  simp only [hhys, hcz, hd, Option.getD_some]
  rw [if_neg (not_le.mpr hlt)]

lemma dwellStep_fire (s : Popup.State) (x y now vw vh t0 : ℚ) (z : String)
    (hx : Popup.isInSidebar x vw = true) (hy : Popup.getZoneFromY y vh = some z)
    (hcz : s.currentZone = some z) (hp : s.pendingZone = none)
    (hd : s.dwellStartTime = some t0) (hge : Popup.DWELL_TIME ≤ now - t0) :
    (Popup.updateGazePosition s x y now vw vh).2 = [z] ∧
    (Popup.updateGazePosition s x y now vw vh).1.currentZone = some z ∧
    (Popup.updateGazePosition s x y now vw vh).1.pendingZone = none ∧
    (Popup.updateGazePosition s x y now vw vh).1.dwellStartTime = some now := by
  have hhys : Popup.zoneHysteresis s (Popup.getZoneFromY y vh) now = s := by
    rw [hy, zoneHysteresis_same s z now hcz]
    exact update_pendingZone_self s hp
  unfold Popup.updateGazePosition
  rw [hx, if_pos rfl]
  simp only [hhys, hcz, hd, Option.getD_some]
  rw [if_pos hge]
  refine ⟨handleZoneAction_acts s z, ?_, ?_, rfl⟩
  · exact ((handleZoneAction_zoneFields s z).1).trans hcz
  · exact ((handleZoneAction_zoneFields s z).2).trans hp

lemma runDwell_append (x y vw vh : ℚ) (s : Popup.State) (a b : List ℚ) :
    Popup.runDwell x y vw vh s (a ++ b)
      = ((Popup.runDwell x y vw vh (Popup.runDwell x y vw vh s a).1 b).1,
         (Popup.runDwell x y vw vh s a).2
           ++ (Popup.runDwell x y vw vh (Popup.runDwell x y vw vh s a).1 b).2) := by
  induction a generalizing s with
  | nil => simp [Popup.runDwell]
  | cons t ts ih =>
    simp only [List.cons_append, Popup.runDwell]
    simp [ih]

lemma runDwell_noFire (x y vw vh : ℚ) (z : String)
    (hx : Popup.isInSidebar x vw = true) (hy : Popup.getZoneFromY y vh = some z) :
    ∀ (l : List ℚ) (s : Popup.State) (t0 : ℚ),
      s.currentZone = some z → s.pendingZone = none → s.dwellStartTime = some t0 →
      (∀ t ∈ l, t - t0 < Popup.DWELL_TIME) →
      Popup.runDwell x y vw vh s l = (s, []) := by
  intro l
  induction l with
  | nil => intro s t0 _ _ _ _; rfl
  | cons t ts ih =>
    intro s t0 hcz hp hd hb
    have h1 := dwellStep_noFire s x y t vw vh t0 z hx hy hcz hp hd (hb t (by simp))
    have h2 := ih s t0 hcz hp hd (fun u hu => hb u (by simp [hu]))
    simp only [Popup.runDwell, h1, h2]
    rfl

lemma runDwell_oneFire (x y vw vh : ℚ) (z : String)
    (hx : Popup.isInSidebar x vw = true) (hy : Popup.getZoneFromY y vh = some z)
    (s : Popup.State) (t0 : ℚ) (l1 : List ℚ)
    (hcz : s.currentZone = some z) (hp : s.pendingZone = none)
    (hd : s.dwellStartTime = some t0)
    (hb : ∀ t ∈ l1, t - t0 < Popup.DWELL_TIME) :
    (Popup.runDwell x y vw vh s (l1 ++ [t0 + Popup.DWELL_TIME])).2 = [z] ∧
    (Popup.runDwell x y vw vh s (l1 ++ [t0 + Popup.DWELL_TIME])).1.currentZone = some z ∧
    (Popup.runDwell x y vw vh s (l1 ++ [t0 + Popup.DWELL_TIME])).1.pendingZone = none ∧
    (Popup.runDwell x y vw vh s (l1 ++ [t0 + Popup.DWELL_TIME])).1.dwellStartTime
      = some (t0 + Popup.DWELL_TIME) := by
  have hnf := runDwell_noFire x y vw vh z hx hy l1 s t0 hcz hp hd hb
  have hfi := dwellStep_fire s x y (t0 + Popup.DWELL_TIME) vw vh t0 z hx hy hcz hp hd
    (by linarith)
  rw [runDwell_append, hnf]
  simp only [Popup.runDwell]
  simp only [List.nil_append]
  exact ⟨by simpa using hfi.1, hfi.2.1, hfi.2.2.1, hfi.2.2.2⟩

/-- Claim C2 (corrected): while the filtered position stays continuously
inside the zone it is tracking, `updateGazePosition` fires the zone's
action exactly when `now - dwellStartTime ≥ DWELL_TIME` and then resets
`dwellStartTime` to `now`; holding through evaluations bounded by
`dwellStart + DWELL_TIME` with a final evaluation exactly there fires
exactly one activation, and continuing to `dwellStart + 2·DWELL_TIME`
fires exactly two.  In popup.js, however, `CONFIG.DWELL_TIME` is 650 ms,
not the claimed default of 600 ms (the 600 ms default belongs to the
Python-mode client). -/
theorem dwell_refire_at_650_c2 :
    (∀ (s : Popup.State) (x y now vw vh t0 : ℚ) (z : String),
      Popup.isInSidebar x vw = true → Popup.getZoneFromY y vh = some z →
      s.currentZone = some z → s.pendingZone = none → s.dwellStartTime = some t0 →
      ((now - t0 < Popup.DWELL_TIME → Popup.updateGazePosition s x y now vw vh = (s, [])) ∧
       (Popup.DWELL_TIME ≤ now - t0 →
         (Popup.updateGazePosition s x y now vw vh).2 = [z] ∧
         (Popup.updateGazePosition s x y now vw vh).1.dwellStartTime = some now))) ∧
    (∀ (s : Popup.State) (x y vw vh t0 : ℚ) (z : String) (l1 : List ℚ),
      Popup.isInSidebar x vw = true → Popup.getZoneFromY y vh = some z →
      s.currentZone = some z → s.pendingZone = none → s.dwellStartTime = some t0 →
      (∀ t ∈ l1, t0 ≤ t ∧ t < t0 + Popup.DWELL_TIME) →
      (Popup.runDwell x y vw vh s (l1 ++ [t0 + Popup.DWELL_TIME])).2 = [z]) ∧
    (∀ (s : Popup.State) (x y vw vh t0 : ℚ) (z : String) (l1 l2 : List ℚ),
      Popup.isInSidebar x vw = true → Popup.getZoneFromY y vh = some z →
      s.currentZone = some z → s.pendingZone = none → s.dwellStartTime = some t0 →
      (∀ t ∈ l1, t0 ≤ t ∧ t < t0 + Popup.DWELL_TIME) →
      (∀ t ∈ l2, t0 + Popup.DWELL_TIME ≤ t ∧ t < t0 + 2 * Popup.DWELL_TIME) →
      (Popup.runDwell x y vw vh s
        ((l1 ++ [t0 + Popup.DWELL_TIME]) ++ (l2 ++ [t0 + 2 * Popup.DWELL_TIME]))).2
        = [z, z]) ∧
    (Popup.runDwell 950 500 1000 800 Popup.dwellTracking [300, Popup.DWELL_TIME]).2
      = ["ASK_AI"] ∧
    (Popup.runDwell 950 500 1000 800 Popup.dwellTracking
      [300, Popup.DWELL_TIME, 900, 2 * Popup.DWELL_TIME]).2 = ["ASK_AI", "ASK_AI"] ∧
    Popup.DWELL_TIME = 650 := by
  have hone : ∀ (s : Popup.State) (x y vw vh t0 : ℚ) (z : String) (l1 : List ℚ),
      Popup.isInSidebar x vw = true → Popup.getZoneFromY y vh = some z →
      s.currentZone = some z → s.pendingZone = none → s.dwellStartTime = some t0 →
      (∀ t ∈ l1, t0 ≤ t ∧ t < t0 + Popup.DWELL_TIME) →
      (Popup.runDwell x y vw vh s (l1 ++ [t0 + Popup.DWELL_TIME])).2 = [z] := by
    intro s x y vw vh t0 z l1 hx hy hcz hp hd hb
    exact (runDwell_oneFire x y vw vh z hx hy s t0 l1 hcz hp hd
      (fun t ht => by have := (hb t ht).2; linarith)).1
  have htwo : ∀ (s : Popup.State) (x y vw vh t0 : ℚ) (z : String) (l1 l2 : List ℚ),
      Popup.isInSidebar x vw = true → Popup.getZoneFromY y vh = some z →
      s.currentZone = some z → s.pendingZone = none → s.dwellStartTime = some t0 →
      (∀ t ∈ l1, t0 ≤ t ∧ t < t0 + Popup.DWELL_TIME) →
      (∀ t ∈ l2, t0 + Popup.DWELL_TIME ≤ t ∧ t < t0 + 2 * Popup.DWELL_TIME) →
      (Popup.runDwell x y vw vh s
        ((l1 ++ [t0 + Popup.DWELL_TIME]) ++ (l2 ++ [t0 + 2 * Popup.DWELL_TIME]))).2
        = [z, z] := by
    intro s x y vw vh t0 z l1 l2 hx hy hcz hp hd hb1 hb2
    have hrw : t0 + 2 * Popup.DWELL_TIME = t0 + Popup.DWELL_TIME + Popup.DWELL_TIME := by
      ring
    rw [hrw, runDwell_append]
    obtain ⟨ha1, hc1, hp1, hd1⟩ := runDwell_oneFire x y vw vh z hx hy s t0 l1 hcz hp hd
      (fun t ht => by have := (hb1 t ht).2; linarith)
    obtain ⟨ha2, _, _, _⟩ := runDwell_oneFire x y vw vh z hx hy
      (Popup.runDwell x y vw vh s (l1 ++ [t0 + Popup.DWELL_TIME])).1
      (t0 + Popup.DWELL_TIME) l2 hc1 hp1 hd1
      (fun t ht => by have := (hb2 t ht).2; linarith)
    rw [ha1, ha2]
    rfl
  have hx : Popup.isInSidebar 950 1000 = true := by
    norm_num [Popup.isInSidebar, Popup.SIDEBAR_WIDTH]
  have hz : Popup.getZoneFromY 500 800 = some "ASK_AI" := by
    norm_num [Popup.getZoneFromY, Popup.ZONE_COUNT, Popup.ZONES, Popup.listGetI]
    rfl
  refine ⟨?_, hone, htwo, ?_, ?_, rfl⟩
  · intro s x y now vw vh t0 z hx2 hy2 hcz hp hd
    exact ⟨fun hlt => dwellStep_noFire s x y now vw vh t0 z hx2 hy2 hcz hp hd hlt,
      fun hge => ⟨(dwellStep_fire s x y now vw vh t0 z hx2 hy2 hcz hp hd hge).1,
        (dwellStep_fire s x y now vw vh t0 z hx2 hy2 hcz hp hd hge).2.2.2⟩⟩
  · have := hone Popup.dwellTracking 950 500 1000 800 0 "ASK_AI" [300] hx hz rfl rfl rfl
      (by intro t ht; simp at ht; subst ht; norm_num [Popup.DWELL_TIME])
    simpa using this
  · have := htwo Popup.dwellTracking 950 500 1000 800 0 "ASK_AI" [300] [900] hx hz rfl rfl rfl
      (by intro t ht; simp at ht; subst ht; norm_num [Popup.DWELL_TIME])
      (by intro t ht; simp at ht; subst ht; norm_num [Popup.DWELL_TIME])
    simpa using this

/-- Counterexample to claim C2 as stated: with popup.js's configuration,
holding zone `ASK_AI` and evaluating at exactly 600 ms of dwell — the
claimed `DWELL_TIME` — fires *no* activation (the activation fires at
650 ms), and `CONFIG.DWELL_TIME` is not 600. -/
theorem dwell_600_fires_nothing_c2_cex :
    (Popup.updateGazePosition Popup.dwellTracking 950 500 600 1000 800).2 = [] ∧
    (Popup.updateGazePosition Popup.dwellTracking 950 500 650 1000 800).2 = ["ASK_AI"] ∧
    Popup.DWELL_TIME ≠ 600 := by
  have hx : Popup.isInSidebar 950 1000 = true := by
    norm_num [Popup.isInSidebar, Popup.SIDEBAR_WIDTH]
  have hz : Popup.getZoneFromY 500 800 = some "ASK_AI" := by
    norm_num [Popup.getZoneFromY, Popup.ZONE_COUNT, Popup.ZONES, Popup.listGetI]
    rfl
  refine ⟨?_, ?_, by norm_num [Popup.DWELL_TIME]⟩
  · rw [dwellStep_noFire Popup.dwellTracking 950 500 600 1000 800 0 "ASK_AI" hx hz rfl rfl
      rfl (by norm_num [Popup.DWELL_TIME])]
  · exact (dwellStep_fire Popup.dwellTracking 950 500 650 1000 800 0 "ASK_AI" hx hz rfl rfl
      rfl (by norm_num [Popup.DWELL_TIME])).1

lemma filter_update_card_succ (ov : Fin 9 → ℕ) (i : Fin 9) (c : ℕ) (hvi : ov i ≠ c) :
    (Finset.univ.filter fun j => Function.update ov i c j = c).card
      = (Finset.univ.filter fun j => ov j = c).card + 1 := by
  have hset : (Finset.univ.filter fun j => Function.update ov i c j = c)
      = insert i (Finset.univ.filter fun j => ov j = c) := by
    ext j
    by_cases hj : j = i
    · subst hj
      simp [Function.update_apply]
    · simp [Function.update_apply, hj]
  rw [hset, Finset.card_insert_of_not_mem]
  simp [hvi]

lemma filter_update_card_same (ov : Fin 9 → ℕ) (i : Fin 9) (v c : ℕ)
    (hvi : ov i ≠ c) (hv : v ≠ c) :
    (Finset.univ.filter fun j => Function.update ov i v j = c)
      = (Finset.univ.filter fun j => ov j = c) := by
  ext j
  by_cases hj : j = i
  · subst hj
    simp [Function.update_apply, hv, hvi]
  · simp [Function.update_apply, hj]

lemma calClick_inv (ov : Fin 9 → ℕ) (s : ContentPy.PState) (i : Fin 9)
    (h : ContentPy.CalInv ov s) :
    ContentPy.CalInv (ContentPy.calClick ov s i).1 (ContentPy.calClick ov s i).2 := by
  obtain ⟨hcap, hcc, hic, hst⟩ := h
  unfold ContentPy.calClick
  by_cases h0 : ContentPy.CLICKS_PER_POINT ≤ ov i
  · rw [if_pos h0]
    exact ⟨hcap, hcc, hic, hst⟩
  · rw [if_neg h0]
    have hvi : ov i ≠ ContentPy.CLICKS_PER_POINT := fun he => h0 he.ge
    have hcap2 : ∀ j, Function.update ov i (ov i + 1) j ≤ ContentPy.CLICKS_PER_POINT := by
      intro j
      by_cases hj : j = i
      · subst hj
        rw [Function.update_same]
        omega
      · rw [Function.update_noteq hj]
        exact hcap j
    by_cases h1 : ContentPy.CLICKS_PER_POINT ≤ ov i + 1
    · rw [if_pos h1]
      have hv2 : ov i + 1 = ContentPy.CLICKS_PER_POINT := by omega
      have hcard : (Finset.univ.filter
            fun j => Function.update ov i (ov i + 1) j = ContentPy.CLICKS_PER_POINT).card
          = (Finset.univ.filter fun j => ov j = ContentPy.CLICKS_PER_POINT).card + 1 := by
        rw [hv2]
        exact filter_update_card_succ ov i ContentPy.CLICKS_PER_POINT hvi
      by_cases h2 : ContentPy.CALIBRATION_POINTS ≤ s.calibrationClicks + 1
      · rw [if_pos h2]
        refine ⟨hcap2, ?_, ?_, rfl⟩
        · simp [ContentPy.finishCalibration, hcard, hcc]
        · simp [ContentPy.finishCalibration, h2]
      · rw [if_neg h2]
        refine ⟨hcap2, ?_, ?_, ?_⟩
        · simp [hcard, hcc]
        · have hic9 : s.isCalibrated = false := by
            rw [hic]
            simp only [decide_eq_false_iff_not]
            omega
          simp only [hic9]
          symm
          simp only [decide_eq_false_iff_not]
          exact h2
        · have hic9 : s.isCalibrated = false := by
            rw [hic]
            simp only [decide_eq_false_iff_not]
            omega
          simpa [hic9] using hst
    · rw [if_neg h1]
      refine ⟨hcap2, ?_, hic, hst⟩
      rw [filter_update_card_same ov i (ov i + 1) ContentPy.CLICKS_PER_POINT hvi
        (fun he => h1 he.ge)]
      exact hcc

lemma runClicks_inv (l : List (Fin 9)) :
    ∀ (ov : Fin 9 → ℕ) (s : ContentPy.PState), ContentPy.CalInv ov s →
      ContentPy.CalInv (ContentPy.runClicks (ov, s) l).1 (ContentPy.runClicks (ov, s) l).2 := by
  induction l with
  | nil => intro ov s h; exact h
  | cons i is ih =>
    intro ov s h
    have h1 := calClick_inv ov s i h
    simpa [ContentPy.runClicks] using ih _ _ h1

lemma calInv_initial : ContentPy.CalInv ContentPy.freshDotClicks (ContentPy.initialPState false) := by
  refine ⟨fun i => by simp [ContentPy.freshDotClicks, ContentPy.CLICKS_PER_POINT], ?_, rfl, rfl⟩
  simp [ContentPy.freshDotClicks, ContentPy.initialPState, ContentPy.CLICKS_PER_POINT]

lemma calInv_isCalibrated_iff (ov : Fin 9 → ℕ) (s : ContentPy.PState)
    (h : ContentPy.CalInv ov s) :
    (s.isCalibrated = true ↔
      ∑ i : Fin 9, ov i = ContentPy.CALIBRATION_POINTS * ContentPy.CLICKS_PER_POINT) := by
  obtain ⟨hcap, hcc, hic, hst⟩ := h
  rw [hic]
  simp only [decide_eq_true_eq]
  constructor
  · intro h9
    have hle : (Finset.univ.filter fun i => ov i = ContentPy.CLICKS_PER_POINT).card ≤ 9 := by
      have := Finset.card_filter_le Finset.univ fun i : Fin 9 => ov i = ContentPy.CLICKS_PER_POINT
      simpa using this
    have hge : 9 ≤ (Finset.univ.filter fun i => ov i = ContentPy.CLICKS_PER_POINT).card := by
      rw [← hcc]
      exact h9.trans_eq rfl
    have huniv : (Finset.univ.filter fun i => ov i = ContentPy.CLICKS_PER_POINT)
        = Finset.univ := by
      apply Finset.eq_univ_of_card
      rw [Fintype.card_fin]
      omega
    have hall : ∀ i, ov i = ContentPy.CLICKS_PER_POINT := by
      intro i
      have hmem : i ∈ Finset.univ.filter fun i => ov i = ContentPy.CLICKS_PER_POINT := by
        rw [huniv]
        exact Finset.mem_univ i
      exact (Finset.mem_filter.mp hmem).2
    rw [Finset.sum_congr rfl fun i _ => hall i, Finset.sum_const, Finset.card_univ,
      Fintype.card_fin]
    simp [ContentPy.CALIBRATION_POINTS]
  · intro hsum
    have hall : ∀ i, ov i = ContentPy.CLICKS_PER_POINT := by
      by_contra hne
      push_neg at hne
      obtain ⟨j, hj⟩ := hne
      have hlt : ∑ i : Fin 9, ov i < ∑ _i : Fin 9, ContentPy.CLICKS_PER_POINT :=
        Finset.sum_lt_sum (fun i _ => hcap i)
          ⟨j, Finset.mem_univ j, lt_of_le_of_ne (hcap j) hj⟩
      rw [Finset.sum_const, Finset.card_univ, Fintype.card_fin, smul_eq_mul] at hlt
      rw [hsum] at hlt
      unfold ContentPy.CALIBRATION_POINTS at hlt
      omega
    have huniv : (Finset.univ.filter fun i => ov i = ContentPy.CLICKS_PER_POINT)
        = Finset.univ := by
      ext i
      simp [hall]
    rw [hcc, huniv, Finset.card_univ, Fintype.card_fin]
    unfold ContentPy.CALIBRATION_POINTS
    omega

/-- Claim C5 (confirmed, against the Python-mode client whose CONFIG the
claim cites): starting from a fresh uncalibrated session, the calibration
state reaches `Done` exactly when `CALIBRATION_POINTS × CLICKS_PER_POINT
= 9 × 2 = 18` click confirmations have been registered (the sum of the
per-dot counters counts registered confirmations: each effective click on
a not-yet-complete dot adds exactly one, and clicks on completed dots are
impossible since they get `pointer-events: none`); `Done` persists
(`storage` mirrors `isCalibrated`), a restarted session with the
persisted flag short-circuits straight to `Done` in
`createCalibrationOverlay`, and an explicit reset clears the persisted
flag, the session flag and the click count (`NotStarted`).  The concrete
conjuncts run the canonical 18-click sequence and its 17-click prefix. -/
theorem calibration_18_clicks_c5 :
    (∀ l : List (Fin 9),
      ((ContentPy.runClicks (ContentPy.freshDotClicks, ContentPy.initialPState false)
          l).2.isCalibrated = true ↔
        ∑ i : Fin 9, (ContentPy.runClicks (ContentPy.freshDotClicks,
          ContentPy.initialPState false) l).1 i
          = ContentPy.CALIBRATION_POINTS * ContentPy.CLICKS_PER_POINT)) ∧
    (∀ l : List (Fin 9),
      (ContentPy.runClicks (ContentPy.freshDotClicks, ContentPy.initialPState false)
          l).2.storage
        = (ContentPy.runClicks (ContentPy.freshDotClicks, ContentPy.initialPState false)
          l).2.isCalibrated) ∧
    ((ContentPy.runClicks (ContentPy.freshDotClicks, ContentPy.initialPState false)
        ContentPy.canonicalClicks).2.isCalibrated = true) ∧
    ((ContentPy.runClicks (ContentPy.freshDotClicks, ContentPy.initialPState false)
        (ContentPy.canonicalClicks.take 17)).2.isCalibrated = false) ∧
    (ContentPy.createCalibrationOverlayLoad (ContentPy.initialPState true)).isCalibrated
      = true ∧
    (∀ s : ContentPy.PState, (ContentPy.resetCalibration s).isCalibrated = false ∧
      (ContentPy.resetCalibration s).calibrationClicks = 0 ∧
      (ContentPy.resetCalibration s).storage = false) := by
  refine ⟨?_, ?_, by decide, by decide, rfl, fun s => ⟨rfl, rfl, rfl⟩⟩
  · intro l
    exact calInv_isCalibrated_iff _ _ (runClicks_inv l _ _ calInv_initial)
  · intro l
    exact (runClicks_inv l _ _ calInv_initial).2.2.2

lemma kalmanFilter_qr (M : ℚ) (ks : Popup.KalmanState) :
    (Popup.kalmanFilter M ks).2.q = ks.q ∧ (Popup.kalmanFilter M ks).2.r = ks.r := ⟨rfl, rfl⟩

lemma kalmanFilter_x (M : ℚ) (ks : Popup.KalmanState) :
    (Popup.kalmanFilter M ks).2.x = (Popup.kalmanFilter M ks).1 := rfl

lemma kalmanFilter_p_pos (M : ℚ) (ks : Popup.KalmanState)
    (hq : 0 < ks.q) (hr : 0 < ks.r) (hp : 0 ≤ ks.p) :
    0 < (Popup.kalmanFilter M ks).2.p := by
  show 0 < (1 - (ks.p + ks.q) / (ks.p + ks.q + ks.r)) * (ks.p + ks.q)
  have hpr : 0 < ks.p + ks.q + ks.r := by linarith
  have h1k : 1 - (ks.p + ks.q) / (ks.p + ks.q + ks.r)
      = ks.r / (ks.p + ks.q + ks.r) := by
    field_simp
  rw [h1k]
  have hpq : 0 < ks.p + ks.q := by linarith
  positivity

lemma kalmanFilter_contract (M : ℚ) (ks : Popup.KalmanState)
    (hq : 0 < ks.q) (hr : 0 < ks.r) (hp : 0 ≤ ks.p) :
    |(Popup.kalmanFilter M ks).1 - M| ≤ ks.r / (ks.q + ks.r) * |ks.x - M| := by
  have hpr : 0 < ks.p + ks.q + ks.r := by linarith
  have hqr : 0 < ks.q + ks.r := by linarith
  have key : (Popup.kalmanFilter M ks).1 - M
      = (1 - (ks.p + ks.q) / (ks.p + ks.q + ks.r)) * (ks.x - M) := by
    show ks.x + (ks.p + ks.q) / (ks.p + ks.q + ks.r) * (M - ks.x) - M
        = (1 - (ks.p + ks.q) / (ks.p + ks.q + ks.r)) * (ks.x - M)
    ring
  have h1k : 1 - (ks.p + ks.q) / (ks.p + ks.q + ks.r)
      = ks.r / (ks.p + ks.q + ks.r) := by
    field_simp
  rw [key, abs_mul, h1k, abs_of_pos (by positivity : (0:ℚ) < ks.r / (ks.p + ks.q + ks.r))]
  have hmono : ks.r / (ks.p + ks.q + ks.r) ≤ ks.r / (ks.q + ks.r) := by
    apply div_le_div_of_nonneg_left (le_of_lt hr) hqr
    linarith
  exact mul_le_mul_of_nonneg_right hmono (abs_nonneg _) |>.trans
    (le_of_eq rfl)

lemma kalmanIterate_inv (M : ℚ) (ks : Popup.KalmanState)
    (hq : 0 < ks.q) (hr : 0 < ks.r) (hp : 0 ≤ ks.p) (n : ℕ) :
    (Popup.kalmanIterate M ks n).q = ks.q ∧ (Popup.kalmanIterate M ks n).r = ks.r ∧
    0 ≤ (Popup.kalmanIterate M ks n).p := by
  induction n with
  | zero => exact ⟨rfl, rfl, hp⟩
  | succ n ih =>
    obtain ⟨ihq, ihr, ihp⟩ := ih
    refine ⟨ihq, ihr, ?_⟩
    exact le_of_lt (kalmanFilter_p_pos M (Popup.kalmanIterate M ks n)
      (ihq ▸ hq) (ihr ▸ hr) ihp)

lemma kalmanIterate_step (M : ℚ) (ks : Popup.KalmanState)
    (hq : 0 < ks.q) (hr : 0 < ks.r) (hp : 0 ≤ ks.p) (n : ℕ) :
    |(Popup.kalmanIterate M ks (n + 1)).x - M|
      ≤ ks.r / (ks.q + ks.r) * |(Popup.kalmanIterate M ks n).x - M| := by
  obtain ⟨ihq, ihr, ihp⟩ := kalmanIterate_inv M ks hq hr hp n
  have h := kalmanFilter_contract M (Popup.kalmanIterate M ks n)
    (ihq ▸ hq) (ihr ▸ hr) ihp
  rw [ihq, ihr] at h
  calc |(Popup.kalmanIterate M ks (n + 1)).x - M|
      = |(Popup.kalmanFilter M (Popup.kalmanIterate M ks n)).1 - M| := by
        rw [show Popup.kalmanIterate M ks (n + 1)
            = (Popup.kalmanFilter M (Popup.kalmanIterate M ks n)).2 from rfl,
          kalmanFilter_x]
    _ ≤ ks.r / (ks.q + ks.r) * |(Popup.kalmanIterate M ks n).x - M| := h

lemma kalmanIterate_geom (M : ℚ) (ks : Popup.KalmanState)
    (hq : 0 < ks.q) (hr : 0 < ks.r) (hp : 0 ≤ ks.p) (n : ℕ) :
    |(Popup.kalmanIterate M ks n).x - M| ≤ (ks.r / (ks.q + ks.r)) ^ n * |ks.x - M| := by
  induction n with
  | zero => simp [Popup.kalmanIterate]
  | succ n ih =>
    have hstep := kalmanIterate_step M ks hq hr hp n
    have hfac : 0 ≤ ks.r / (ks.q + ks.r) := by positivity
    calc |(Popup.kalmanIterate M ks (n + 1)).x - M|
        ≤ ks.r / (ks.q + ks.r) * |(Popup.kalmanIterate M ks n).x - M| := hstep
      _ ≤ ks.r / (ks.q + ks.r) * ((ks.r / (ks.q + ks.r)) ^ n * |ks.x - M|) :=
          mul_le_mul_of_nonneg_left ih hfac
      _ = (ks.r / (ks.q + ks.r)) ^ (n + 1) * |ks.x - M| := by ring

/-- Claim C9 (confirmed): for the per-axis Kalman filter with any process
noise `q > 0`, measurement noise `r > 0` and initial covariance `p ≥ 0`
(popup.js uses `q = 8`, `r = 20`, `p = 1000`), feeding a constant
measurement `M` contracts the error `|estimate − M|` by at least the
factor `r/(q+r) < 1` at every step, so the estimate approaches `M`
monotonically and satisfies the geometric bound `(r/(q+r))^n · |x₀ − M|`.
With the code's initial state (`x₀ = 0`) the factor is `5/7`, and since
`(5/7)^14 ≤ 1/100`, the estimate is within 1% of `M` after 14 steps — a
bound determined by `q` and `r` alone. -/
theorem kalman_convergence_c9 :
    (∀ (M : ℚ) (ks : Popup.KalmanState), 0 < ks.q → 0 < ks.r → 0 ≤ ks.p →
      ∀ n : ℕ,
        |(Popup.kalmanIterate M ks (n + 1)).x - M|
          ≤ ks.r / (ks.q + ks.r) * |(Popup.kalmanIterate M ks n).x - M| ∧
        |(Popup.kalmanIterate M ks (n + 1)).x - M|
          ≤ |(Popup.kalmanIterate M ks n).x - M| ∧
        |(Popup.kalmanIterate M ks n).x - M|
          ≤ (ks.r / (ks.q + ks.r)) ^ n * |ks.x - M|) ∧
    (∀ (M : ℚ) (n : ℕ), 14 ≤ n →
      |(Popup.kalmanIterate M Popup.initKalman n).x - M| ≤ |M| / 100) ∧
    Popup.initKalman.q = 8 ∧ Popup.initKalman.r = 20 ∧ Popup.initKalman.p = 1000 ∧
    Popup.initKalman.x = 0 := by
  refine ⟨?_, ?_, rfl, rfl, rfl, rfl⟩
  · intro M ks hq hr hp n
    have hstep := kalmanIterate_step M ks hq hr hp n
    have hfac1 : ks.r / (ks.q + ks.r) ≤ 1 := by
      rw [div_le_one (by linarith)]
      linarith
    refine ⟨hstep, ?_, kalmanIterate_geom M ks hq hr hp n⟩
    calc |(Popup.kalmanIterate M ks (n + 1)).x - M|
        ≤ ks.r / (ks.q + ks.r) * |(Popup.kalmanIterate M ks n).x - M| := hstep
      _ ≤ 1 * |(Popup.kalmanIterate M ks n).x - M| :=
          mul_le_mul_of_nonneg_right hfac1 (abs_nonneg _)
      _ = |(Popup.kalmanIterate M ks n).x - M| := one_mul _
  · intro M n hn
    have hgeom := kalmanIterate_geom M Popup.initKalman (by norm_num [Popup.initKalman])
      (by norm_num [Popup.initKalman]) (by norm_num [Popup.initKalman]) n
    have hfac : Popup.initKalman.r / (Popup.initKalman.q + Popup.initKalman.r)
        = 5 / 7 := by
      norm_num [Popup.initKalman]
    have hx0 : |Popup.initKalman.x - M| = |M| := by
      norm_num [Popup.initKalman]
    rw [hfac, hx0] at hgeom
    have hpow : ((5 : ℚ) / 7) ^ n ≤ (5 / 7 : ℚ) ^ 14 :=
      pow_le_pow_of_le_one (by norm_num) (by norm_num) hn
    have h14 : ((5 : ℚ) / 7) ^ 14 ≤ 1 / 100 := by norm_num
    calc |(Popup.kalmanIterate M Popup.initKalman n).x - M|
        ≤ (5 / 7 : ℚ) ^ n * |M| := hgeom
      _ ≤ (1 / 100 : ℚ) * |M| :=
          mul_le_mul_of_nonneg_right (hpow.trans h14) (abs_nonneg _)
      _ = |M| / 100 := by ring
